import Mathlib

/-!
Verification of the Signal Generation & Trade Lifecycle Engine of TradeXAI_TS.

Numbers are modelled as exact rationals (ℚ); the JS arrays of closes, highs,
lows and volumes become Lean lists with the most recent element last.
`arr.slice(-n)` becomes `l.drop (l.length - n)`, `arr[i]` becomes
`l.getD i 0` (all accesses in the source are guarded by length checks that we
reproduce), and `new Date().toISOString()` becomes an explicit `now : String`
argument threaded through the two tracker functions.
-/

namespace TradeXAI

/-- JS `Math.max(...)` over a non-empty list (guards in the source ensure
non-emptiness wherever it is used). -/
def listMax (l : List ℚ) : ℚ :=
  match l with
  | [] => 0
  | x :: xs => xs.foldl max x

/-- JS `Math.min(...)` over a non-empty list. -/
def listMin (l : List ℚ) : ℚ :=
  match l with
  | [] => 0
  | x :: xs => xs.foldl min x

/-- JS `arr.slice(-n)` for `n ≥ 1`: the last `n` elements (all of them when
the list is shorter). -/
def lastN (l : List ℚ) (n : ℕ) : List ℚ := l.drop (l.length - n)

/-- The source's `StockData` record (`src/utils/api.ts`), restricted to the
fields the engine reads. -/
structure StockData where
  prices : List ℚ
  highs : List ℚ
  lows : List ℚ
  volumes : List ℚ
  current : ℚ
  previousClose : ℚ
deriving DecidableEq

/-! ### Indicator library -/

/-- `calculateSMA` from the source: mean of the last `period` closes; with
fewer than `period` samples, the last element (`data[data.length-1] ?? 0`). -/
def calculateSMA (data : List ℚ) (period : ℕ) : ℚ :=
  if data.length < period then data.getLastD 0
  else (lastN data period).sum / period

/-- `calculateEMA` from the source: seeded with `data[0]`, recurrence
`ema = x*k + ema*(1-k)` with `k = 2/(period+1)`; `0` on an empty list. -/
def calculateEMA (data : List ℚ) (period : ℕ) : ℚ :=
  match data with
  | [] => 0
  | d :: rest =>
    let k : ℚ := 2 / (period + 1)
    rest.foldl (fun ema x => x * k + ema * (1 - k)) d

/-- Successive differences `l[i+1] - l[i]`, oldest first. -/
def deltas (l : List ℚ) : List ℚ := List.zipWith (fun a b => b - a) l l.tail

/-- Sum of the positive deltas over the last `period` differences
(the source's `gains` accumulator). -/
def rsiGains (data : List ℚ) (period : ℕ) : ℚ :=
  ((deltas (lastN data (period + 1))).filter (fun d => decide (0 < d))).sum

/-- Negated sum of the non-positive deltas over the last `period`
differences (the source's `losses` accumulator: `losses -= diff`). -/
def rsiLosses (data : List ℚ) (period : ℕ) : ℚ :=
  -((deltas (lastN data (period + 1))).filter (fun d => !decide (0 < d))).sum

/-- `calculateRSI` from the source: neutral `50` with fewer than `period+1`
samples; `100` when the average loss is zero; otherwise
`100 - 100/(1 + avgGain/avgLoss)`. -/
def calculateRSI (data : List ℚ) (period : ℕ) : ℚ :=
  if data.length < period + 1 then 50
  else
    let avgGain := rsiGains data period / period
    let avgLoss := rsiLosses data period / period
    if avgLoss = 0 then 100
    else 100 - 100 / (1 + avgGain / avgLoss)

/-! ### Structural pattern detectors -/

/-- Tri-state verdict of the directional detectors; `none` models the
source's `null`. -/
inductive Direction where
  | BULLISH
  | BEARISH
deriving DecidableEq

/-- `detectFairValueGap`: with at least 3 bars, a gap exists when
`|low[i+2] - high[i]| / high[i] > 0.005` at `i = len-3`. -/
def detectFairValueGap (highs lows : List ℚ) : Bool :=
  if highs.length < 3 ∨ lows.length < 3 then false
  else
    let i := highs.length - 3
    let prevHigh := highs.getD i 0
    let nextLow := lows.getD (i + 2) 0
    decide (|nextLow - prevHigh| / prevHigh > 0.005)

/-- `detectOrderBlock`: last close against the mean of the last five closes,
with ±1% bands. -/
def detectOrderBlock (prices : List ℚ) : Option Direction :=
  if prices.length < 5 then none
  else
    let lastFive := lastN prices 5
    let avg := lastFive.sum / 5
    let recent := prices.getLastD 0
    if recent > avg * 1.01 then some .BULLISH
    else if recent < avg * 0.99 then some .BEARISH
    else none

/-- `detectVolumeSurge`: latest volume strictly above 1.5 times the mean of
the last ten volumes (`volumes.slice(-10)`, which includes the latest one). -/
def detectVolumeSurge (volumes : List ℚ) : Bool :=
  if volumes.length < 10 then false
  else
    let avgVol := (lastN volumes 10).sum / 10
    let latest := volumes.getLastD 0
    decide (latest > avgVol * 1.5)

/-- JS `arr.slice(-6,-1)`: drop the last element of the last six. -/
def sliceNeg6Neg1 (l : List ℚ) : List ℚ := (l.drop (l.length - 6)).dropLast

/-- `detectLiquiditySweep`: failed breakout above the recent high (BEARISH)
or failed breakdown below the recent low (BULLISH). -/
def detectLiquiditySweep (highs lows : List ℚ) (current : ℚ) : Option Direction :=
  if highs.length < 5 ∨ lows.length < 5 then none
  else
    let recentHigh := listMax (sliceNeg6Neg1 highs)
    let recentLow := listMin (sliceNeg6Neg1 lows)
    if current > recentHigh ∧ current < highs.getD (highs.length - 2) 0 then some .BEARISH
    else if current < recentLow ∧ current > lows.getD (lows.length - 2) 0 then some .BULLISH
    else none

/-- JS `arr.slice(-6,-2)`: drop the last two elements of the last six. -/
def sliceNeg6Neg2 (l : List ℚ) : List ℚ := ((l.drop (l.length - 6)).dropLast).dropLast

/-- `detectMitigationBlock`: last close inside the band built from the closes
at positions `-6..-2`. -/
def detectMitigationBlock (prices : List ℚ) : Option Direction :=
  if prices.length < 6 then none
  else
    let last := prices.getLastD 0
    let prevLow := listMin (sliceNeg6Neg2 prices)
    let prevHigh := listMax (sliceNeg6Neg2 prices)
    if last > prevLow * 1.02 ∧ last < prevHigh then some .BULLISH
    else if last < prevHigh * 0.98 ∧ last > prevLow then some .BEARISH
    else none

/-- `detectBreakerBlock`: range of the last five closes against the range of
the preceding five. -/
def detectBreakerBlock (prices : List ℚ) : Option Direction :=
  if prices.length < 10 then none
  else
    let prev5 := (prices.drop (prices.length - 10)).take 5
    let last5 := lastN prices 5
    let prevHigh := listMax prev5
    let prevLow := listMin prev5
    let currHigh := listMax last5
    let currLow := listMin last5
    if currHigh > prevHigh ∧ currLow > prevLow then some .BULLISH
    else if currLow < prevLow ∧ currHigh < prevHigh then some .BEARISH
    else none

/-- `detectBOS`: latest high above the high three bars back by more than
0.2%, or latest low below the low three bars back by more than 0.2%. -/
def detectBOS (highs lows : List ℚ) : Option Direction :=
  if highs.length < 6 ∨ lows.length < 6 then none
  else
    let prevHigh := highs.getD (highs.length - 3) 0
    let currHigh := highs.getD (highs.length - 1) 0
    let prevLow := lows.getD (lows.length - 3) 0
    let currLow := lows.getD (lows.length - 1) 0
    if currHigh > prevHigh * 1.002 then some .BULLISH
    else if currLow < prevLow * 0.998 then some .BEARISH
    else none

/-- `detectCHoCH`: 0.1% break of the high (only) is BULLISH, of the low
(only) is BEARISH. -/
def detectCHoCH (highs lows : List ℚ) : Option Direction :=
  if highs.length < 8 ∨ lows.length < 8 then none
  else
    let lastHigh := highs.getD (highs.length - 1) 0
    let secondLastHigh := highs.getD (highs.length - 3) 0
    let lastLow := lows.getD (lows.length - 1) 0
    let secondLastLow := lows.getD (lows.length - 3) 0
    let brokeHigh := lastHigh > secondLastHigh * 1.001
    let brokeLow := lastLow < secondLastLow * 0.999
    if brokeHigh ∧ ¬brokeLow then some .BULLISH
    else if brokeLow ∧ ¬brokeHigh then some .BEARISH
    else none

/-! ### Signal structure and synthesizer -/

/-- The `"BUY" | "SELL" | "HOLD"` union of the source, as a closed
enumeration. -/
inductive SignalDir where
  | BUY
  | SELL
  | HOLD
deriving DecidableEq

/-- The `"ACTIVE" | "TARGET ✅" | "STOP ❌"` union of the source. -/
inductive HitStatus where
  | ACTIVE
  | TARGET_HIT
  | STOP_HIT
deriving DecidableEq

/-- The source's `SignalResult` record. `entryPrice`, `finalPrice` and
`resolvedAt` are optional in TypeScript; the optional boolean `resolved` is
modelled as `Bool` (JS truthiness maps `undefined` to `false`). -/
structure SignalResult where
  signal : SignalDir
  stoploss : ℚ
  targets : List ℚ
  confidence : ℚ
  explanation : String
  hitStatus : HitStatus
  entryPrice : Option ℚ
  finalPrice : Option ℚ
  resolved : Bool
  resolvedAt : Option String
deriving DecidableEq

/-- Confidence of the BUY branch: base 70 plus the sequential `+=` bonuses
of the aligned detectors, in source order. -/
def buyConfidence (bos choch orderBlock mitigation breaker : Option Direction)
    (hasFVG volumeSurge : Bool) (liquiditySweep : Option Direction) : ℚ :=
  70 + (if bos = some .BULLISH then 10 else 0)
     + (if choch = some .BULLISH then 10 else 0)
     + (if orderBlock = some .BULLISH then 5 else 0)
     + (if mitigation = some .BULLISH then 5 else 0)
     + (if breaker = some .BULLISH then 5 else 0)
     + (if hasFVG then 3 else 0)
     + (if volumeSurge then 3 else 0)
     + (if liquiditySweep = some .BULLISH then 4 else 0)

/-- Explanation of the BUY branch: base clause plus the appended fragments,
in source order. -/
def buyExplanation (bos choch orderBlock mitigation breaker : Option Direction)
    (hasFVG volumeSurge : Bool) (liquiditySweep : Option Direction) : String :=
  "Price above SMA20 & EMA50 with bullish momentum."
    ++ (if bos = some .BULLISH then " BOS confirmed." else "")
    ++ (if choch = some .BULLISH then " CHoCH reversal." else "")
    ++ (if orderBlock = some .BULLISH then " Bullish OB." else "")
    ++ (if mitigation = some .BULLISH then " Mitigation Block respected." else "")
    ++ (if breaker = some .BULLISH then " Breaker Block confirmed." else "")
    ++ (if hasFVG then " FVG spotted." else "")
    ++ (if volumeSurge then " Strong volume." else "")
    ++ (if liquiditySweep = some .BULLISH then " Bullish liquidity sweep." else "")

/-- Confidence of the SELL branch, mirrored on BEARISH verdicts. -/
def sellConfidence (bos choch orderBlock mitigation breaker : Option Direction)
    (hasFVG volumeSurge : Bool) (liquiditySweep : Option Direction) : ℚ :=
  70 + (if bos = some .BEARISH then 10 else 0)
     + (if choch = some .BEARISH then 10 else 0)
     + (if orderBlock = some .BEARISH then 5 else 0)
     + (if mitigation = some .BEARISH then 5 else 0)
     + (if breaker = some .BEARISH then 5 else 0)
     + (if hasFVG then 3 else 0)
     + (if volumeSurge then 3 else 0)
     + (if liquiditySweep = some .BEARISH then 4 else 0)

/-- Explanation of the SELL branch. -/
def sellExplanation (bos choch orderBlock mitigation breaker : Option Direction)
    (hasFVG volumeSurge : Bool) (liquiditySweep : Option Direction) : String :=
  "Price below SMA20 & EMA50 with bearish momentum."
    ++ (if bos = some .BEARISH then " BOS confirmed." else "")
    ++ (if choch = some .BEARISH then " CHoCH reversal." else "")
    ++ (if orderBlock = some .BEARISH then " Bearish OB." else "")
    ++ (if mitigation = some .BEARISH then " Mitigation Block confirmed." else "")
    ++ (if breaker = some .BEARISH then " Breaker Block formed." else "")
    ++ (if hasFVG then " FVG imbalance." else "")
    ++ (if volumeSurge then " Heavy selling volume." else "")
    ++ (if liquiditySweep = some .BEARISH then " Bearish liquidity sweep." else "")

/-- `generateSMCSignal` from the source. The two sequential `if` blocks of
the source are reproduced as a fall-through chain; the second (SELL) gate is
tested on the state left by the first. -/
def generateSMCSignal (stock : StockData) : SignalResult :=
  let prices := stock.prices
  let highs := stock.highs
  let lows := stock.lows
  let volumes := stock.volumes
  let current := stock.current
  let prevClose := stock.previousClose
  let sma20 := calculateSMA prices 20
  let ema50 := calculateEMA prices 50
  let rsi := calculateRSI prices 14
  let change := (current - prevClose) / prevClose * 100
  let hasFVG := detectFairValueGap highs lows
  let orderBlock := detectOrderBlock prices
  let volumeSurge := detectVolumeSurge volumes
  let liquiditySweep := detectLiquiditySweep highs lows current
  let bos := detectBOS highs lows
  let choch := detectCHoCH highs lows
  let mitigation := detectMitigationBlock prices
  let breaker := detectBreakerBlock prices
  let state0 : SignalDir × ℚ × String :=
    (SignalDir.HOLD, 50, "Neutral: waiting for confirmation.")
  let state1 : SignalDir × ℚ × String :=
    if current > sma20 ∧ current > ema50 ∧ rsi < 70 ∧ change > 0 then
      (SignalDir.BUY,
       buyConfidence bos choch orderBlock mitigation breaker hasFVG volumeSurge liquiditySweep,
       buyExplanation bos choch orderBlock mitigation breaker hasFVG volumeSurge liquiditySweep)
    else state0
  let state2 : SignalDir × ℚ × String :=
    if current < sma20 ∧ current < ema50 ∧ rsi > 30 ∧ change < 0 then
      (SignalDir.SELL,
       sellConfidence bos choch orderBlock mitigation breaker hasFVG volumeSurge liquiditySweep,
       sellExplanation bos choch orderBlock mitigation breaker hasFVG volumeSurge liquiditySweep)
    else state1
  let signal := state2.1
  let confidence := min state2.2.1 99
  let stoploss :=
    if signal = SignalDir.BUY then current * 0.985
    else if signal = SignalDir.SELL then current * 1.015
    else current
  let targets :=
    if signal = SignalDir.BUY then [current * 1.01, current * 1.02, current * 1.03]
    else if signal = SignalDir.SELL then [current * 0.99, current * 0.98, current * 0.97]
    else [current]
  { signal := signal
    stoploss := stoploss
    targets := targets
    confidence := confidence
    explanation := state2.2.2
    hitStatus := HitStatus.ACTIVE
    entryPrice := some current
    finalPrice := none
    resolved := false
    resolvedAt := none }

/-! ### Trade lifecycle tracker -/

/-- JS `p >= targets[0]` (false on an empty `targets`, where `targets[0]` is
`undefined` and the comparison is false). -/
def firstTargetReachedAbove (targets : List ℚ) (p : ℚ) : Bool :=
  match targets with
  | [] => false
  | t :: _ => decide (p ≥ t)

/-- JS `p <= targets[0]` (false on an empty `targets`). -/
def firstTargetReachedBelow (targets : List ℚ) (p : ℚ) : Bool :=
  match targets with
  | [] => false
  | t :: _ => decide (p ≤ t)

/-- `updateHitStatus` from the source: live tick against stoploss (checked
first) and first target; no-op on resolved records and on HOLD signals. -/
def updateHitStatus (result : SignalResult) (currentPrice : ℚ) (now : String) : SignalResult :=
  if result.resolved then result
  else if result.signal = SignalDir.BUY then
    if currentPrice ≤ result.stoploss then
      { result with hitStatus := HitStatus.STOP_HIT, explanation := "Stoploss hit.",
                    resolved := true, resolvedAt := some now, finalPrice := some currentPrice }
    else if firstTargetReachedAbove result.targets currentPrice then
      { result with hitStatus := HitStatus.TARGET_HIT, explanation := "Target 1 hit.",
                    resolved := true, resolvedAt := some now, finalPrice := some currentPrice }
    else result
  else if result.signal = SignalDir.SELL then
    if currentPrice ≥ result.stoploss then
      { result with hitStatus := HitStatus.STOP_HIT, explanation := "Stoploss hit.",
                    resolved := true, resolvedAt := some now, finalPrice := some currentPrice }
    else if firstTargetReachedBelow result.targets currentPrice then
      { result with hitStatus := HitStatus.TARGET_HIT, explanation := "Target 1 hit.",
                    resolved := true, resolvedAt := some now, finalPrice := some currentPrice }
    else result
  else result

/-- `evaluateEndOfDayResult` from the source: stoploss (first) and first
target tested against the day's extremes; any unresolved record is closed
with `finalPrice = closePrice`, keeping `ACTIVE` when nothing was breached. -/
def evaluateEndOfDayResult (signal : SignalResult) (dayHigh dayLow closePrice : ℚ)
    (now : String) : SignalResult :=
  if signal.resolved then signal
  else
    let statusExpl : HitStatus × String :=
      if signal.signal = SignalDir.BUY then
        if dayLow ≤ signal.stoploss then (HitStatus.STOP_HIT, "Stoploss hit intraday.")
        else if firstTargetReachedAbove signal.targets dayHigh then
          (HitStatus.TARGET_HIT, "Target reached.")
        else (HitStatus.ACTIVE, signal.explanation)
      else if signal.signal = SignalDir.SELL then
        if dayHigh ≥ signal.stoploss then (HitStatus.STOP_HIT, "Stoploss hit intraday.")
        else if firstTargetReachedBelow signal.targets dayLow then
          (HitStatus.TARGET_HIT, "Target reached.")
        else (HitStatus.ACTIVE, signal.explanation)
      else (HitStatus.ACTIVE, signal.explanation)
    { signal with hitStatus := statusExpl.1, finalPrice := some closePrice,
                  resolved := true, resolvedAt := some now,
                  explanation := statusExpl.2 }

/-! ### Trade records and accuracy -/

/-- The `"BOS" | "CHoCH" | null` structural tag of `TradeResult`. -/
inductive BosTag where
  | BOS
  | CHoCH
deriving DecidableEq

/-- The source's `TradeResult` record (`src/utils/tradeManager.ts`),
restricted to the fields the accuracy aggregator and lifecycle use. -/
structure TradeResult where
  symbol : String
  signal : SignalDir
  stoploss : ℚ
  targets : List ℚ
  confidence : ℚ
  hitStatus : HitStatus
  explanation : Option String
  entry : Option ℚ
  finalPrice : Option ℚ
  resolved : Bool
  resolvedAt : Option String
  bos : Option BosTag
deriving DecidableEq

/-- JS `Math.round` on a non-negative rational: `⌊x + 1/2⌋` (halves round
up). -/
def jsRound (x : ℚ) : ℤ := ⌊x + 1 / 2⌋

/-- `computeAccuracy` from the source: share of `TARGET ✅` among resolved
trades, rounded; `0` when no trade is resolved. -/
def computeAccuracy (trades : List TradeResult) : ℤ :=
  let resolvedTrades := trades.filter (fun t => t.resolved)
  if resolvedTrades.length = 0 then 0
  else
    let success := (resolvedTrades.filter
      (fun t => decide (t.hitStatus = HitStatus.TARGET_HIT))).length
    jsRound ((success : ℚ) / (resolvedTrades.length : ℚ) * 100)

/-! ### Gate predicates and characterization lemmas -/

/-- The BUY gate of the synthesizer: price above both moving averages, RSI
below 70, positive percent change from the previous close. -/
def BuyGate (stock : StockData) : Prop :=
  stock.current > calculateSMA stock.prices 20 ∧
  stock.current > calculateEMA stock.prices 50 ∧
  calculateRSI stock.prices 14 < 70 ∧
  (stock.current - stock.previousClose) / stock.previousClose * 100 > 0

/-- The SELL gate of the synthesizer: the mirror of the BUY gate. -/
def SellGate (stock : StockData) : Prop :=
  stock.current < calculateSMA stock.prices 20 ∧
  stock.current < calculateEMA stock.prices 50 ∧
  calculateRSI stock.prices 14 > 30 ∧
  (stock.current - stock.previousClose) / stock.previousClose * 100 < 0

instance (stock : StockData) : Decidable (BuyGate stock) := by
  unfold BuyGate; infer_instance

instance (stock : StockData) : Decidable (SellGate stock) := by
  unfold SellGate; infer_instance

/-- The two gates cannot hold together: they disagree on `current` versus
`sma20`. -/
lemma buy_sell_gates_exclusive (stock : StockData) (hb : BuyGate stock)
    (hs : SellGate stock) : False :=
  absurd hs.1 (asymm hb.1)

lemma smc_signal_ite (stock : StockData) :
    (generateSMCSignal stock).signal =
      if SellGate stock then SignalDir.SELL
      else if BuyGate stock then SignalDir.BUY
      else SignalDir.HOLD := by
  unfold generateSMCSignal BuyGate SellGate
  dsimp only
  split_ifs <;> rfl

/-- The BUY-branch confidence of `generateSMCSignal stock`, before clamping. -/
def smcBuyConf (stock : StockData) : ℚ :=
  buyConfidence (detectBOS stock.highs stock.lows) (detectCHoCH stock.highs stock.lows)
    (detectOrderBlock stock.prices) (detectMitigationBlock stock.prices)
    (detectBreakerBlock stock.prices) (detectFairValueGap stock.highs stock.lows)
    (detectVolumeSurge stock.volumes) (detectLiquiditySweep stock.highs stock.lows stock.current)

/-- The SELL-branch confidence of `generateSMCSignal stock`, before clamping. -/
def smcSellConf (stock : StockData) : ℚ :=
  sellConfidence (detectBOS stock.highs stock.lows) (detectCHoCH stock.highs stock.lows)
    (detectOrderBlock stock.prices) (detectMitigationBlock stock.prices)
    (detectBreakerBlock stock.prices) (detectFairValueGap stock.highs stock.lows)
    (detectVolumeSurge stock.volumes) (detectLiquiditySweep stock.highs stock.lows stock.current)

lemma smc_confidence_ite (stock : StockData) :
    (generateSMCSignal stock).confidence =
      if SellGate stock then min (smcSellConf stock) 99
      else if BuyGate stock then min (smcBuyConf stock) 99
      else 50 := by
  unfold generateSMCSignal
  dsimp only
  by_cases hs : SellGate stock
  · have hs' := hs; unfold SellGate at hs'
    rw [if_pos hs, if_pos hs']; rfl
  · have hs' := hs; unfold SellGate at hs'
    rw [if_neg hs, if_neg hs']
    by_cases hb : BuyGate stock
    · have hb' := hb; unfold BuyGate at hb'
      rw [if_pos hb, if_pos hb']; rfl
    · have hb' := hb; unfold BuyGate at hb'
      rw [if_neg hb, if_neg hb']
      norm_num

lemma smc_stoploss_ite (stock : StockData) :
    (generateSMCSignal stock).stoploss =
      if SellGate stock then stock.current * 1.015
      else if BuyGate stock then stock.current * 0.985
      else stock.current := by
  unfold generateSMCSignal
  dsimp only
  by_cases hs : SellGate stock
  · have hs' := hs; unfold SellGate at hs'
    rw [if_pos hs, if_pos hs']; rfl
  · have hs' := hs; unfold SellGate at hs'
    rw [if_neg hs, if_neg hs']
    by_cases hb : BuyGate stock
    · have hb' := hb; unfold BuyGate at hb'
      rw [if_pos hb, if_pos hb']; rfl
    · have hb' := hb; unfold BuyGate at hb'
      rw [if_neg hb, if_neg hb']; rfl

lemma smc_targets_ite (stock : StockData) :
    (generateSMCSignal stock).targets =
      if SellGate stock then
        [stock.current * 0.99, stock.current * 0.98, stock.current * 0.97]
      else if BuyGate stock then
        [stock.current * 1.01, stock.current * 1.02, stock.current * 1.03]
      else [stock.current] := by
  unfold generateSMCSignal
  dsimp only
  by_cases hs : SellGate stock
  · have hs' := hs; unfold SellGate at hs'
    rw [if_pos hs, if_pos hs']; rfl
  · have hs' := hs; unfold SellGate at hs'
    rw [if_neg hs, if_neg hs']
    by_cases hb : BuyGate stock
    · have hb' := hb; unfold BuyGate at hb'
      rw [if_pos hb, if_pos hb']; rfl
    · have hb' := hb; unfold BuyGate at hb'
      rw [if_neg hb, if_neg hb']; rfl

lemma smcBuyConf_bounds (stock : StockData) :
    70 ≤ smcBuyConf stock ∧ smcBuyConf stock ≤ 115 := by
  unfold smcBuyConf buyConfidence
  constructor <;> (split_ifs <;> norm_num)

lemma smcSellConf_bounds (stock : StockData) :
    70 ≤ smcSellConf stock ∧ smcSellConf stock ≤ 115 := by
  unfold smcSellConf sellConfidence
  constructor <;> (split_ifs <;> norm_num)

/-! ### Sample inputs used to instantiate the theorems -/

/-- Sample input whose synthesis is a BUY with no detector bonuses: empty
history, `current = 5`, `previousClose = 4`. -/
def stockBuySample : StockData := ⟨[], [], [], [], 5, 4⟩

/-- Sample input whose synthesis is a SELL: one close at 10, `current = 5`,
`previousClose = 6`. -/
def stockSellSample : StockData := ⟨[10], [], [], [], 5, 6⟩

/-- Sample input whose synthesis is a HOLD (zero percent change). -/
def stockHoldSample : StockData := ⟨[], [], [], [], 5, 5⟩

/-! ### Claim theorems -/

/-- C1: `generateSMCSignal` returns BUY exactly when `current > sma20`,
`current > ema50`, `rsi < 70` and the percent change from `previousClose`
is positive; SELL exactly on the mirrored gate; HOLD in every other case
(`BuyGate` and `SellGate` spell out those gates over the embedded
indicators). -/
theorem smc_direction_gates (stock : StockData) :
    ((generateSMCSignal stock).signal = SignalDir.BUY ↔ BuyGate stock) ∧
    ((generateSMCSignal stock).signal = SignalDir.SELL ↔ SellGate stock) ∧
    ((generateSMCSignal stock).signal = SignalDir.HOLD ↔
      (¬BuyGate stock ∧ ¬SellGate stock)) := by
  by_cases hs : SellGate stock
  · refine ⟨iff_of_false ?_ (fun hb => buy_sell_gates_exclusive stock hb hs),
      iff_of_true ?_ hs, iff_of_false ?_ (fun h => h.2 hs)⟩ <;>
      simp [smc_signal_ite, hs]
  · by_cases hb : BuyGate stock
    · refine ⟨iff_of_true ?_ hb, iff_of_false ?_ hs, iff_of_false ?_ (fun h => h.1 hb)⟩ <;>
        simp [smc_signal_ite, hs, hb]
    · refine ⟨iff_of_false ?_ hb, iff_of_false ?_ hs, iff_of_true ?_ ⟨hb, hs⟩⟩ <;>
        simp [smc_signal_ite, hs, hb]

/-- C1 witness: on `stockBuySample` the BUY gate holds and the synthesized
direction is BUY. -/
theorem smc_direction_gates_witness :
    (generateSMCSignal stockBuySample).signal = SignalDir.BUY :=
  (smc_direction_gates stockBuySample).1.mpr
    (by norm_num [BuyGate, stockBuySample, calculateSMA, calculateEMA, calculateRSI])

/-- C2: confidence is always in `[50, 99]`; HOLD signals have confidence
exactly 50; BUY (resp. SELL) signals have confidence 70 plus the bonuses of
the aligned detectors — BOS +10, CHoCH +10, Order Block +5, Mitigation
Block +5, Breaker Block +5, Fair Value Gap +3, Volume Surge +3, Liquidity
Sweep +4 — clamped to at most 99. -/
theorem smc_confidence_spec (stock : StockData) :
    (50 ≤ (generateSMCSignal stock).confidence ∧ (generateSMCSignal stock).confidence ≤ 99) ∧
    ((generateSMCSignal stock).signal = SignalDir.HOLD →
      (generateSMCSignal stock).confidence = 50) ∧
    ((generateSMCSignal stock).signal = SignalDir.BUY →
      (generateSMCSignal stock).confidence =
        min (70 + (if detectBOS stock.highs stock.lows = some Direction.BULLISH then 10 else 0)
                + (if detectCHoCH stock.highs stock.lows = some Direction.BULLISH then 10 else 0)
                + (if detectOrderBlock stock.prices = some Direction.BULLISH then 5 else 0)
                + (if detectMitigationBlock stock.prices = some Direction.BULLISH then 5 else 0)
                + (if detectBreakerBlock stock.prices = some Direction.BULLISH then 5 else 0)
                + (if detectFairValueGap stock.highs stock.lows then 3 else 0)
                + (if detectVolumeSurge stock.volumes then 3 else 0)
                + (if detectLiquiditySweep stock.highs stock.lows stock.current
                     = some Direction.BULLISH then 4 else 0)) 99) ∧
    ((generateSMCSignal stock).signal = SignalDir.SELL →
      (generateSMCSignal stock).confidence =
        min (70 + (if detectBOS stock.highs stock.lows = some Direction.BEARISH then 10 else 0)
                + (if detectCHoCH stock.highs stock.lows = some Direction.BEARISH then 10 else 0)
                + (if detectOrderBlock stock.prices = some Direction.BEARISH then 5 else 0)
                + (if detectMitigationBlock stock.prices = some Direction.BEARISH then 5 else 0)
                + (if detectBreakerBlock stock.prices = some Direction.BEARISH then 5 else 0)
                + (if detectFairValueGap stock.highs stock.lows then 3 else 0)
                + (if detectVolumeSurge stock.volumes then 3 else 0)
                + (if detectLiquiditySweep stock.highs stock.lows stock.current
                     = some Direction.BEARISH then 4 else 0)) 99) := by
  have hsig := smc_signal_ite stock
  have hconf := smc_confidence_ite stock
  by_cases hs : SellGate stock
  · rw [if_pos hs] at hsig hconf
    rw [hsig, hconf]
    exact ⟨⟨le_min (by linarith [(smcSellConf_bounds stock).1]) (by norm_num),
        min_le_right _ _⟩,
      fun h => absurd h (by simp), fun h => absurd h (by simp), fun _ => rfl⟩
  · rw [if_neg hs] at hsig hconf
    by_cases hb : BuyGate stock
    · rw [if_pos hb] at hsig hconf
      rw [hsig, hconf]
      exact ⟨⟨le_min (by linarith [(smcBuyConf_bounds stock).1]) (by norm_num),
          min_le_right _ _⟩,
        fun h => absurd h (by simp), fun _ => rfl, fun h => absurd h (by simp)⟩
    · rw [if_neg hb] at hsig hconf
      rw [hsig, hconf]
      exact ⟨⟨by norm_num, by norm_num⟩, fun _ => rfl,
        fun h => absurd h (by simp), fun h => absurd h (by simp)⟩

/-- C2 witness: the bounds instantiated on `stockBuySample`. -/
theorem smc_confidence_spec_witness :
    50 ≤ (generateSMCSignal stockBuySample).confidence ∧
    (generateSMCSignal stockBuySample).confidence ≤ 99 :=
  (smc_confidence_spec stockBuySample).1

/-- C3: with `current > 0`, BUY and SELL signals carry three targets and
HOLD carries `[current]`; BUY targets are strictly increasing and above
`current` with `stoploss = current*0.985`; SELL targets are strictly
decreasing and below `current` with `stoploss = current*1.015`; the HOLD
stoploss is `current` itself. -/
theorem smc_risk_levels (stock : StockData) (hc : 0 < stock.current) :
    ((generateSMCSignal stock).signal = SignalDir.BUY →
      (generateSMCSignal stock).targets.length = 3 ∧
      (generateSMCSignal stock).targets.Pairwise (· < ·) ∧
      (∀ t ∈ (generateSMCSignal stock).targets, stock.current < t) ∧
      (generateSMCSignal stock).stoploss = stock.current * 0.985) ∧
    ((generateSMCSignal stock).signal = SignalDir.SELL →
      (generateSMCSignal stock).targets.length = 3 ∧
      (generateSMCSignal stock).targets.Pairwise (· > ·) ∧
      (∀ t ∈ (generateSMCSignal stock).targets, t < stock.current) ∧
      (generateSMCSignal stock).stoploss = stock.current * 1.015) ∧
    ((generateSMCSignal stock).signal = SignalDir.HOLD →
      (generateSMCSignal stock).targets = [stock.current] ∧
      (generateSMCSignal stock).stoploss = stock.current) := by
  have hsig := smc_signal_ite stock
  have htg := smc_targets_ite stock
  have hsl := smc_stoploss_ite stock
  by_cases hs : SellGate stock
  · rw [if_pos hs] at hsig htg hsl
    refine ⟨fun h => absurd (hsig ▸ h) (by simp), fun _ => ?_,
      fun h => absurd (hsig ▸ h) (by simp)⟩
    rw [htg, hsl]
    have h01 : stock.current * 0.98 < stock.current * 0.99 := by linarith
    have h02 : stock.current * 0.97 < stock.current * 0.99 := by linarith
    have h12 : stock.current * 0.97 < stock.current * 0.98 := by linarith
    have hc1 : stock.current * 0.99 < stock.current := by linarith
    have hc2 : stock.current * 0.98 < stock.current := by linarith
    have hc3 : stock.current * 0.97 < stock.current := by linarith
    refine ⟨rfl, ?_, ?_, rfl⟩
    · simp [List.pairwise_cons, h01, h02, h12]
    · intro t ht
      simp only [List.mem_cons, List.not_mem_nil, or_false] at ht
      rcases ht with rfl | rfl | rfl
      exacts [hc1, hc2, hc3]
  · rw [if_neg hs] at hsig htg hsl
    by_cases hb : BuyGate stock
    · rw [if_pos hb] at hsig htg hsl
      refine ⟨fun _ => ?_, fun h => absurd (hsig ▸ h) (by simp),
        fun h => absurd (hsig ▸ h) (by simp)⟩
      rw [htg, hsl]
      have h01 : stock.current * 1.01 < stock.current * 1.02 := by linarith
      have h02 : stock.current * 1.01 < stock.current * 1.03 := by linarith
      have h12 : stock.current * 1.02 < stock.current * 1.03 := by linarith
      have hc1 : stock.current < stock.current * 1.01 := by linarith
      have hc2 : stock.current < stock.current * 1.02 := by linarith
      have hc3 : stock.current < stock.current * 1.03 := by linarith
      refine ⟨rfl, ?_, ?_, rfl⟩
      · simp [List.pairwise_cons, h01, h02, h12]
      · intro t ht
        simp only [List.mem_cons, List.not_mem_nil, or_false] at ht
        rcases ht with rfl | rfl | rfl
        exacts [hc1, hc2, hc3]
    · rw [if_neg hb] at hsig htg hsl
      refine ⟨fun h => absurd (hsig ▸ h) (by simp),
        fun h => absurd (hsig ▸ h) (by simp), fun _ => ?_⟩
      rw [htg, hsl]
      exact ⟨rfl, rfl⟩

/-- C3 witness: on `stockBuySample` (current 5 > 0) the BUY branch's target
shape holds. -/
theorem smc_risk_levels_witness :
    (generateSMCSignal stockBuySample).targets.length = 3 ∧
    (generateSMCSignal stockBuySample).targets.Pairwise (· < ·) :=
  have h := (smc_risk_levels stockBuySample (by norm_num [stockBuySample])).1
    (by norm_num [generateSMCSignal, stockBuySample, calculateSMA, calculateEMA, calculateRSI,
      detectFairValueGap, detectOrderBlock, detectVolumeSurge, detectLiquiditySweep,
      detectBOS, detectCHoCH, detectMitigationBlock, detectBreakerBlock, lastN])
  ⟨h.1, h.2.1⟩

/-- Unresolved BUY signal with `stoploss = 95` and first target `105`
(the spec's stop-before-target example). -/
def sigBuySample : SignalResult :=
  ⟨SignalDir.BUY, 95, [105, 110, 115], 70, "b", HitStatus.ACTIVE, some 100, none, false, none⟩

/-- A resolved (terminal) signal record. -/
def sigDoneSample : SignalResult :=
  ⟨SignalDir.BUY, 95, [105], 80, "r", HitStatus.TARGET_HIT, some 100, some 106, true, some "t"⟩

/-- Unresolved HOLD signal. -/
def sigHoldSample : SignalResult :=
  ⟨SignalDir.HOLD, 100, [100], 50, "h", HitStatus.ACTIVE, some 100, none, false, none⟩

/-- C4: on an unresolved signal, `evaluateEndOfDayResult` checks the
stoploss before the first target (BUY: `dayLow` against stoploss; SELL:
`dayHigh` against stoploss), so a day breaching both resolves as STOP_HIT;
and any resolution sets `finalPrice` to the session close, never to the
triggering extreme. -/
theorem eod_stop_precedence (s : SignalResult) (dayHigh dayLow closePrice : ℚ) (now : String)
    (hres : s.resolved = false) :
    (s.signal = SignalDir.BUY → dayLow ≤ s.stoploss →
      firstTargetReachedAbove s.targets dayHigh = true →
      (evaluateEndOfDayResult s dayHigh dayLow closePrice now).hitStatus = HitStatus.STOP_HIT) ∧
    (s.signal = SignalDir.SELL → dayHigh ≥ s.stoploss →
      firstTargetReachedBelow s.targets dayLow = true →
      (evaluateEndOfDayResult s dayHigh dayLow closePrice now).hitStatus = HitStatus.STOP_HIT) ∧
    ((evaluateEndOfDayResult s dayHigh dayLow closePrice now).resolved = true ∧
     (evaluateEndOfDayResult s dayHigh dayLow closePrice now).finalPrice = some closePrice) := by
  refine ⟨?_, ?_, ?_, ?_⟩
  · intro hb hstop _
    simp [evaluateEndOfDayResult, hres, hb, hstop]
  · intro hsell hstop _
    simp [evaluateEndOfDayResult, hres, hsell, hstop]
  · simp [evaluateEndOfDayResult, hres]
  · simp [evaluateEndOfDayResult, hres]

/-- C4 witness: the spec's example — BUY, stoploss 95, first target 105,
day with low 94 and high 106 — resolves STOP_HIT with `finalPrice` the
close 100. -/
theorem eod_stop_precedence_witness :
    (evaluateEndOfDayResult sigBuySample 106 94 100 "eod").hitStatus = HitStatus.STOP_HIT ∧
    (evaluateEndOfDayResult sigBuySample 106 94 100 "eod").finalPrice = some 100 :=
  have h := eod_stop_precedence sigBuySample 106 94 100 "eod" rfl
  ⟨h.1 rfl (by norm_num [sigBuySample]) (by norm_num [sigBuySample, firstTargetReachedAbove]),
   h.2.2.2⟩

/-- C5: a resolved signal is terminal — both tracker functions return the
input record unchanged, for every price, day range, close and timestamp. -/
theorem resolved_is_terminal (s : SignalResult) (p dayHigh dayLow closePrice : ℚ)
    (now1 now2 : String) (h : s.resolved = true) :
    updateHitStatus s p now1 = s ∧
    evaluateEndOfDayResult s dayHigh dayLow closePrice now2 = s := by
  constructor <;> simp [updateHitStatus, evaluateEndOfDayResult, h]

/-- C5 witness: the terminal sample record is returned unchanged. -/
theorem resolved_is_terminal_witness :
    updateHitStatus sigDoneSample 1 "n" = sigDoneSample ∧
    evaluateEndOfDayResult sigDoneSample 2 1 1 "n" = sigDoneSample :=
  resolved_is_terminal sigDoneSample 1 2 1 1 "n" "n" rfl

/-- C6: an end-of-day evaluation that breaches neither level (or any HOLD
signal) still closes the record: `resolved = true`, `resolvedAt` set,
`finalPrice = closePrice`, while `hitStatus` stays ACTIVE — and such a
record counts in the accuracy denominator (resolved filter) but never in
the numerator (TARGET_HIT filter). -/
theorem eod_nonbreach_active (s : SignalResult) (dayHigh dayLow closePrice : ℚ) (now : String)
    (hres : s.resolved = false)
    (hbuy : s.signal = SignalDir.BUY →
      ¬ dayLow ≤ s.stoploss ∧ firstTargetReachedAbove s.targets dayHigh = false)
    (hsell : s.signal = SignalDir.SELL →
      ¬ dayHigh ≥ s.stoploss ∧ firstTargetReachedBelow s.targets dayLow = false) :
    ((evaluateEndOfDayResult s dayHigh dayLow closePrice now).resolved = true ∧
     (evaluateEndOfDayResult s dayHigh dayLow closePrice now).resolvedAt = some now ∧
     (evaluateEndOfDayResult s dayHigh dayLow closePrice now).finalPrice = some closePrice ∧
     (evaluateEndOfDayResult s dayHigh dayLow closePrice now).hitStatus = HitStatus.ACTIVE) ∧
    (∀ (t : TradeResult) (ts : List TradeResult), t.resolved = true →
      t.hitStatus = HitStatus.ACTIVE →
      ((t :: ts).filter (fun x => x.resolved)).length
        = (ts.filter (fun x => x.resolved)).length + 1 ∧
      (((t :: ts).filter (fun x => x.resolved)).filter
          (fun x => decide (x.hitStatus = HitStatus.TARGET_HIT))).length
        = ((ts.filter (fun x => x.resolved)).filter
          (fun x => decide (x.hitStatus = HitStatus.TARGET_HIT))).length) := by
  constructor
  · rcases hsig : s.signal with _ | _ | _
    · rcases hbuy hsig with ⟨h1, h2⟩
      simp [evaluateEndOfDayResult, hres, hsig, h1, h2]
    · rcases hsell hsig with ⟨h1, h2⟩
      simp [evaluateEndOfDayResult, hres, hsig, h1, h2]
    · simp [evaluateEndOfDayResult, hres, hsig]
  · intro t ts h1 h2
    simp [List.filter_cons, h1, h2]

/-- C6 witness: an unresolved HOLD signal fed a non-breaching day is closed
as resolved-but-ACTIVE. -/
theorem eod_nonbreach_active_witness :
    (evaluateEndOfDayResult sigHoldSample 101 99 100 "eod").resolved = true ∧
    (evaluateEndOfDayResult sigHoldSample 101 99 100 "eod").hitStatus = HitStatus.ACTIVE :=
  have h := eod_nonbreach_active sigHoldSample 101 99 100 "eod" rfl
    (fun hx => absurd hx (by simp [sigHoldSample]))
    (fun hx => absurd hx (by simp [sigHoldSample]))
  ⟨h.1.1, h.1.2.2.2⟩

/-- C7: `updateHitStatus` never changes `signal`, `stoploss`, `targets`,
`confidence` or `entryPrice`; and a non-terminal tick — HOLD signal, or an
unresolved BUY/SELL with neither stoploss nor first target breached —
returns the input record entirely unchanged. -/
theorem update_frame (s : SignalResult) (p : ℚ) (now : String) :
    ((updateHitStatus s p now).signal = s.signal ∧
     (updateHitStatus s p now).stoploss = s.stoploss ∧
     (updateHitStatus s p now).targets = s.targets ∧
     (updateHitStatus s p now).confidence = s.confidence ∧
     (updateHitStatus s p now).entryPrice = s.entryPrice) ∧
    (s.resolved = false → s.signal = SignalDir.HOLD → updateHitStatus s p now = s) ∧
    (s.resolved = false → s.signal = SignalDir.BUY → ¬ p ≤ s.stoploss →
      firstTargetReachedAbove s.targets p = false → updateHitStatus s p now = s) ∧
    (s.resolved = false → s.signal = SignalDir.SELL → ¬ p ≥ s.stoploss →
      firstTargetReachedBelow s.targets p = false → updateHitStatus s p now = s) := by
  refine ⟨?_, ?_, ?_, ?_⟩
  · unfold updateHitStatus
    split_ifs <;> simp
  · intro hres hsig
    simp [updateHitStatus, hres, hsig]
  · intro hres hsig h1 h2
    simp [updateHitStatus, hres, hsig, h1, h2]
  · intro hres hsig h1 h2
    simp [updateHitStatus, hres, hsig, h1, h2]

/-- C7 witness: a non-breaching live tick on the BUY sample (price 100,
between stoploss 95 and target 105) is a no-op. -/
theorem update_frame_witness :
    updateHitStatus sigBuySample 100 "n" = sigBuySample :=
  (update_frame sigBuySample 100 "n").2.2.1 rfl rfl
    (by norm_num [sigBuySample])
    (by norm_num [sigBuySample, firstTargetReachedAbove])

/-- Three resolved trades (two TARGET_HIT, one STOP_HIT) and one unresolved
ACTIVE trade: the spec's accuracy example. -/
def sampleTrades : List TradeResult :=
  [⟨"AAA", SignalDir.BUY, 95, [105], 70, HitStatus.TARGET_HIT, none, some 100, some 106, true,
     some "d1", none⟩,
   ⟨"BBB", SignalDir.BUY, 95, [105], 70, HitStatus.TARGET_HIT, none, some 100, some 107, true,
     some "d1", none⟩,
   ⟨"CCC", SignalDir.SELL, 105, [95], 70, HitStatus.STOP_HIT, none, some 100, some 106, true,
     some "d1", none⟩,
   ⟨"DDD", SignalDir.BUY, 95, [105], 70, HitStatus.ACTIVE, none, some 100, none, false,
     none, none⟩]

/-- C8: `computeAccuracy` equals `round(100 * #TARGET_HIT-resolved /
#resolved)`, is `0` when no trade is resolved, excludes unresolved trades
from numerator and denominator, and yields `67` on the spec's
two-TARGET/one-STOP/one-ACTIVE example. -/
theorem computeAccuracy_spec (trades : List TradeResult) :
    (computeAccuracy trades =
      if trades.countP (fun t => t.resolved) = 0 then 0
      else jsRound (100 * (trades.countP (fun t => t.resolved &&
              decide (t.hitStatus = HitStatus.TARGET_HIT)) : ℚ)
            / (trades.countP (fun t => t.resolved) : ℚ))) ∧
    computeAccuracy sampleTrades = 67 := by
  constructor
  · have hfun : (fun t : TradeResult => t.resolved && decide (t.hitStatus = HitStatus.TARGET_HIT))
        = (fun t : TradeResult => decide (t.hitStatus = HitStatus.TARGET_HIT) && t.resolved) := by
      funext t; exact Bool.and_comm _ _
    rw [hfun]
    unfold computeAccuracy
    dsimp only
    rw [List.countP_eq_length_filter, List.countP_eq_length_filter, List.filter_filter]
    split_ifs with h
    · rfl
    · congr 1
      ring
  · simp [computeAccuracy, sampleTrades, List.filter_cons]
    norm_num [jsRound]

/-- C8 witness: the no-resolved-trades fallback, via the general formula at
the empty collection. -/
theorem computeAccuracy_spec_witness : computeAccuracy ([] : List TradeResult) = 0 := by
  have h := (computeAccuracy_spec []).1
  simpa using h

/-- Eleven volumes: ten at 100 followed by a latest of 155. The mean of the
ten volumes preceding the latest is 100, and `155 > 150 = 1.5·100`, yet the
source averages `slice(-10)` — which includes the latest — giving mean
105.5 and threshold 158.25, so no surge is reported. -/
def volsSurge : List ℚ := [100, 100, 100, 100, 100, 100, 100, 100, 100, 100, 155]

/-- C9 counterexample: the latest volume exceeds 1.5 times the mean of the
ten volumes preceding it, but `detectVolumeSurge` returns `false`, because
the source's window includes the latest volume itself. -/
theorem volume_surge_counterexample :
    detectVolumeSurge volsSurge = false ∧
    volsSurge.getLastD 0 > 1.5 * ((lastN volsSurge.dropLast 10).sum / 10) := by
  constructor <;> norm_num [detectVolumeSurge, volsSurge, lastN]

/-- C9 (amended): for ten or more volumes, `detectVolumeSurge` is true
exactly when the latest volume strictly exceeds 1.5 times the mean of the
last ten volumes including the latest itself; exact equality yields false,
and fewer than ten volumes yield false. -/
theorem volume_surge_amended (volumes : List ℚ) :
    (10 ≤ volumes.length →
      (detectVolumeSurge volumes = true ↔
        volumes.getLastD 0 > ((lastN volumes 10).sum / 10) * 1.5)) ∧
    (volumes.getLastD 0 = ((lastN volumes 10).sum / 10) * 1.5 →
      detectVolumeSurge volumes = false) ∧
    (volumes.length < 10 → detectVolumeSurge volumes = false) := by
  refine ⟨?_, ?_, ?_⟩
  · intro hlen
    unfold detectVolumeSurge
    rw [if_neg (by omega)]
    simp
  · intro heq
    unfold detectVolumeSurge
    split_ifs with h
    · rfl
    · simp only [decide_eq_false_iff_not, not_lt]
      exact heq.le
  · intro hlen
    unfold detectVolumeSurge
    rw [if_pos hlen]

/-- C9 witness: a genuine surge — ten volumes at 100 and a latest of 200
(mean incl. latest 110, threshold 165, and 200 > 165). -/
theorem volume_surge_amended_witness :
    detectVolumeSurge [100, 100, 100, 100, 100, 100, 100, 100, 100, 100, (200:ℚ)] = true :=
  ((volume_surge_amended _).1 (by norm_num)).mpr (by norm_num [lastN])

/-- C10: `calculateSMA` on a non-empty series shorter than `period` returns
the last element; `calculateRSI` on a series shorter than `period + 1`
returns 50; and (for positive `period`, with enough samples) when the
average loss over the last `period` deltas is zero, `calculateRSI` returns
100. All three are total Lean functions, so none of these inputs can
throw. -/
theorem indicator_degenerate (data : List ℚ) (period : ℕ) :
    (∀ hne : data ≠ [], data.length < period → calculateSMA data period = data.getLast hne) ∧
    (data.length < period + 1 → calculateRSI data period = 50) ∧
    (0 < period → period + 1 ≤ data.length → rsiLosses data period / period = 0 →
      calculateRSI data period = 100) := by
  refine ⟨?_, ?_, ?_⟩
  · intro hne hlen
    unfold calculateSMA
    rw [if_pos hlen, List.getLastD_eq_getLast?, List.getLast?_eq_getLast data hne]
    rfl
  · intro hlen
    unfold calculateRSI
    rw [if_pos (by omega)]
  · intro hp hlen hloss
    unfold calculateRSI
    rw [if_neg (by omega)]
    dsimp only
    rw [if_pos hloss]

/-- C10 witness: `SMA([5], 20) = 5`, `RSI([5], 14) = 50`, and
`RSI([1,2], 1) = 100` (the single delta is a gain, so the average loss is
zero). -/
theorem indicator_degenerate_witness :
    calculateSMA [5] 20 = 5 ∧ calculateRSI [5] 14 = 50 ∧ calculateRSI [1, 2] 1 = 100 := by
  refine ⟨?_, ?_, ?_⟩
  · have h := (indicator_degenerate [5] 20).1 (by simp) (by simp)
    simpa using h
  · exact (indicator_degenerate [5] 14).2.1 (by simp)
  · exact (indicator_degenerate [1, 2] 1).2.2 (by norm_num) (by norm_num)
      (by norm_num [rsiLosses, deltas, lastN])

end TradeXAI
